import Mathlib

/-
Verification development for the mash shell's lexer + parser front end
(token catalog, lexer state machines, recursive-descent command parser).
Definitions are shallow embeddings of the Go source; where a helper is
absent from the sources, its definition is modelled from the design
document and marked as such in its doc comment.
-/

set_option maxRecDepth 10000

/-! ## Token catalog (pkg/token)

Go declares `type Type int` with the kinds produced by `iota`.  We embed
`Type` as `Nat` and each constant as its `iota` value, in source order.
-/

/-- Token kind, Go `token.Type` (an `int`). -/
abbrev TokenType := Nat

namespace token

def Illegal : TokenType := 0

def Eof : TokenType := 1

def Comment : TokenType := 2

def literalBeg : TokenType := 3

def Identifier : TokenType := 4

def Number : TokenType := 5

def String : TokenType := 6

def literalEnd : TokenType := 7

def operatorBeg : TokenType := 8

def Addition : TokenType := 9

def Subtraction : TokenType := 10

def Multiplication : TokenType := 11

def Quotient : TokenType := 12

def Remainder : TokenType := 13

def And : TokenType := 14

def Or : TokenType := 15

def Xor : TokenType := 16

def ShiftLeft : TokenType := 17

def ShiftRight : TokenType := 18

def AndNot : TokenType := 19

def AdditionAssign : TokenType := 20

def SubtractionAssign : TokenType := 21

def MultiplicationAssign : TokenType := 22

def QuotientAssign : TokenType := 23

def RemainderAssign : TokenType := 24

def AndAssign : TokenType := 25

def OrAssign : TokenType := 26

def XorAssign : TokenType := 27

def ShiftLeftAssign : TokenType := 28

def ShiftRightAssign : TokenType := 29

def AndNotAssign : TokenType := 30

def LogicalAnd : TokenType := 31

def LogicalOr : TokenType := 32

def Equal : TokenType := 33

def LessThan : TokenType := 34

def GreaterThan : TokenType := 35

def Assign : TokenType := 36

def Define : TokenType := 37

def Not : TokenType := 38

def NotEqual : TokenType := 39

def LessThanEqual : TokenType := 40

def GreaterThanEqual : TokenType := 41

def LeftParen : TokenType := 42

def LeftBrack : TokenType := 43

def LeftBrace : TokenType := 44

def Template : TokenType := 45

def Comma : TokenType := 46

def Period : TokenType := 47

def RightParen : TokenType := 48

def RightBrack : TokenType := 49

def RightBrace : TokenType := 50

def Semicolon : TokenType := 51

def Colon : TokenType := 52

def operatorEnd : TokenType := 53

def keywordBeg : TokenType := 54

def For : TokenType := 55

def If : TokenType := 56

def Else : TokenType := 57

def Let : TokenType := 58

def Obj : TokenType := 59

def Func : TokenType := 60

def Break : TokenType := 61

def Continue : TokenType := 62

def Return : TokenType := 63

def keywordEnd : TokenType := 64

end token

/-- The `tokens` spelling array from pkg/token, positionally indexed by
kind.  Indices that the Go composite literal leaves unset (the four
range sentinels) hold the empty string, exactly as in Go. -/
def tokens : List String :=
  ["ILLEGAL", "EOF", "COMMENT",
   "",
   "IDENT", "FLOAT", "STRING",
   "",
   "",
   "+", "-", "*", "/", "%",
   "&", "|", "^", "<<", ">>", "&^",
   "+=", "-=", "*=", "/=", "%=",
   "&=", "|=", "^=", "<<=", ">>=", "&^=",
   "&&", "||",
   "==", "<", ">", "=", ":=", "!",
   "!=", "<=", ">=",
   "(", "[", "\x7b", "\x27", ",", ".",
   ")", "]", "\x7d", ";", ":",
   "",
   "",
   "for", "if", "else",
   "let", "obj", "func",
   "break", "continue", "return"]

/-- Go `func token(s string) Type`: scan the `tokens` array in index
order and return the first kind whose spelling equals `s`, else
`Illegal`. -/
def token (s : String) : TokenType :=
  (tokens.indexOf? s).getD token.Illegal

/-- Go `func (tok Type) String() string`: the canonical spelling when
the kind is in range and has one, otherwise `token(N)`. -/
def TokenType.String (tok : TokenType) : String :=
  let s := if tok < tokens.length then tokens.getD tok "" else ""
  if s = "" then "token(" ++ toString tok ++ ")" else s

/-- Go `func (tok Type) IsLiteral() bool`: range check against the
literal sentinels. -/
def TokenType.IsLiteral (tok : TokenType) : Bool :=
  decide (token.literalBeg < tok ∧ tok < token.literalEnd)

/-- Go `func (tok Type) IsOperator() bool`: range check against the
operator sentinels. -/
def TokenType.IsOperator (tok : TokenType) : Bool :=
  decide (token.operatorBeg < tok ∧ tok < token.operatorEnd)

/-- Go `func (tok Type) IsKeyword() bool`: range check against the
keyword sentinels. -/
def TokenType.IsKeyword (tok : TokenType) : Bool :=
  decide (token.keywordBeg < tok ∧ tok < token.keywordEnd)

/-- Go `func (tok Type) InsertSemi() bool`: whether a semicolon should
be inferred after a token of this kind. -/
def TokenType.InsertSemi (tok : TokenType) : Bool :=
  if tok.IsLiteral then true
  else if tok = token.RightParen ∨ tok = token.RightBrack ∨
          tok = token.RightBrace ∨ tok = token.Break ∨
          tok = token.Continue ∨ tok = token.Return then true
  else false

/-- The `keywords` map built by pkg/token's `init`: one entry per kind
strictly between `keywordBeg` and `keywordEnd`, keyed by its spelling,
in insertion order. -/
def keywords : List (String × TokenType) :=
  (List.range (token.keywordEnd - token.keywordBeg - 1)).map
    (fun i => (tokens.getD (token.keywordBeg + 1 + i) "", token.keywordBeg + 1 + i))

/-- Go `func IsKeyword(name string) bool`: membership in the `keywords`
map. -/
def IsKeyword (name : String) : Bool :=
  (keywords.lookup name).isSome

/-- Go `func IsOperator(s string) bool`: resolve the spelling and test
the operator range. -/
def IsOperator (s : String) : Bool :=
  (token s).IsOperator

/-- Go `func Lookup(name string) Type`: the keyword's kind when `name`
is a keyword spelling, otherwise `Identifier`. -/
def Lookup (name : String) : TokenType :=
  (keywords.lookup name).getD token.Identifier

/-! ## Positions and tokens

`token.Position` itself is not among the provided sources; the design
document specifies a (line, column) cursor, both 1-based, where a
newline increments the line and resets the column to 1. -/

/-- Modelled from the spec: `token.Position`, a (line, column) cursor
attached to every token and error (the type's declaration is not among
the provided sources). -/
structure PositionT where
  line : Nat
  col : Nat
deriving DecidableEq, Repr

/-- Modelled from the spec: `Position.NextLine` — a newline increments
the line and resets the column to 1. -/
def PositionT.NextLine (p : PositionT) : PositionT :=
  ⟨p.line + 1, 1⟩

/-- Go `token.Token`: kind, literal text in source, start position. -/
structure Token where
  typ : TokenType
  literal : String
  pos : PositionT
deriving DecidableEq, Repr

/-! ## AST (pkg/ast)

The ast package is not among the provided sources; the node shapes are
fixed by the design document (§3) and by how pkg/parser constructs
them: `LiteralCommand{Cmd, Args}`, `UnaryCommand{Operator, Right}`,
`BinaryCommand{Left, Operator, Right}`, `LogicalCommand{Left, Operator,
Right}`, `CmdStatement{Command}`, `BlockStatement{Statements}`,
`Program{Statements}`.  Go statement values may be nil (the parser
returns nil statements on several paths), so statement slots are
`Option Stmt`. -/

/-- Modelled from the spec: the `ast.Command` variants (literal, unary,
binary/pipe, logical) exactly as pkg/parser constructs them. -/
inductive Cmd where
  | lit : Token → List Token → Cmd
  | unary : Token → Cmd → Cmd
  | binary : Cmd → Token → Cmd → Cmd
  | logical : Cmd → Token → Cmd → Cmd
deriving Repr

/-- Modelled from the spec: the `ast.Statement` variants the parser
builds (block statement, command statement).  A Go `nil` statement is
represented as `none` at use sites. -/
inductive Stmt where
  | block : List (Option Stmt) → Stmt
  | cmd : Cmd → Stmt
deriving Repr

/-! ## Parser state and primitives (pkg/parser)

The parser's token-window primitives (`current`, `pTok`, `next`,
`match`, `atEnd`, `error`) live in a parser file that is not among the
provided sources; the design document (§4.2, §5) specifies them:
`current` is the token just consumed, `pTok` the kind of the next
unconsumed token, `next` advances the window by one token, `match`
advances only on the expected kind, `atEnd` holds when there are no
more tokens and the stream is closed, and `error` reports a syntax
error (position + message) without aborting.  The token stream is
received in order from the lexer; reading past the closed stream yields
the zero `Token` value, as a closed Go channel does. -/

/-- Modelled from the spec: the parser's window over the token stream —
the token just consumed (`current`), the unconsumed remainder of the
stream, and the count of reported syntax errors. -/
structure ParserState where
  cur : Token
  rest : List Token
  errs : Nat
deriving DecidableEq, Repr

/-- The zero `token.Token` value (what receiving on a closed Go channel
yields). -/
def zeroTok : Token :=
  ⟨token.Illegal, "", ⟨0, 0⟩⟩

/-- Modelled from the spec: `p.pTok`, the kind of the next unconsumed
token; at the end of the closed stream the lexer's final token is
end-of-input. -/
def pTok (s : ParserState) : TokenType :=
  match s.rest with
  | [] => token.Eof
  | t :: _ => t.typ

/-- Modelled from the spec: `p.next()`, advancing the window by one
token; past the end it yields the zero token. -/
def pnext (s : ParserState) : ParserState :=
  match s.rest with
  | [] => { s with cur := zeroTok }
  | t :: ts => { s with cur := t, rest := ts }

/-- Modelled from the spec: `p.match(kind)` — advance only if the
peeked kind is the expected one, returning whether it matched. -/
def matchTok (k : TokenType) (s : ParserState) : ParserState × Bool :=
  if pTok s = k then (pnext s, true) else (s, false)

/-- Modelled from the spec: `p.error(err)` — report a syntax error and
continue; the embedding records only the count. -/
def perror (s : ParserState) : ParserState :=
  { s with errs := s.errs + 1 }

/-- Modelled from the spec: `p.atEnd()` — no more tokens and the stream
is closed. -/
def atEnd (s : ParserState) : Bool :=
  s.rest.isEmpty

/-! ## Parse functions (pkg/parser, src/unnamed/part_001)

Each looping or (mutually) recursive function takes explicit fuel and
returns `none` when the fuel runs out; a `none` result for every fuel
value is how the embedding expresses non-termination of the Go loop. -/

/-- The argument loop of `parseCmdLit`: `for p.match(token.STRING) {
lit.Args = append(lit.Args, p.current()) }`. -/
def parseCmdLitArgs : Nat → Token → List Token → ParserState →
    Option (Cmd × ParserState)
  | 0, _, _, _ => none
  | f + 1, cmd, args, s =>
    let (s1, ok) := matchTok token.String s
    if ok then parseCmdLitArgs f cmd (args ++ [s1.cur]) s1
    else some (Cmd.lit cmd args, s1)

/-- `parseCmdLit`: require a STRING for the command name (reporting an
error when it is absent, while still building the node from
`p.current()`), then collect STRING arguments. -/
def parseCmdLit (f : Nat) (s : ParserState) : Option (Cmd × ParserState) :=
  let (s1, ok) := matchTok token.String s
  let s2 := if ok then s1 else perror s1
  parseCmdLitArgs f s2.cur [] s2

/-- The pipe loop of `parseCmdPipe`: `for p.match(token.OR)` folding
`BinaryCommand` to the left. -/
def parseCmdPipeLoop : Nat → Cmd → ParserState → Option (Cmd × ParserState)
  | 0, _, _ => none
  | f + 1, expr, s =>
    let (s1, ok) := matchTok token.Or s
    if ok then
      match parseCmdLit f s1 with
      | none => none
      | some (right, s2) =>
        parseCmdPipeLoop f (Cmd.binary expr s1.cur right) s2
    else some (expr, s1)

/-- `parseCmdPipe`: a command literal followed by zero or more
`| literal` repetitions. -/
def parseCmdPipe (f : Nat) (s : ParserState) : Option (Cmd × ParserState) :=
  match parseCmdLit f s with
  | none => none
  | some (expr, s1) => parseCmdPipeLoop f expr s1

/-- `parseCmdNot`: `if p.match(token.NOT)` wrap a full pipe expression
in `UnaryCommand`, else parse the pipe expression directly. -/
def parseCmdNot (f : Nat) (s : ParserState) : Option (Cmd × ParserState) :=
  let (s1, ok) := matchTok token.Not s
  if ok then
    match parseCmdPipe f s1 with
    | none => none
    | some (right, s2) => some (Cmd.unary s1.cur right, s2)
  else parseCmdPipe f s1

/-- The loop of `parseCmdAnd`: `for p.match(token.LAND)` folding
`LogicalCommand` to the left. -/
def parseCmdAndLoop : Nat → Cmd → ParserState → Option (Cmd × ParserState)
  | 0, _, _ => none
  | f + 1, expr, s =>
    let (s1, ok) := matchTok token.LogicalAnd s
    if ok then
      match parseCmdNot f s1 with
      | none => none
      | some (right, s2) =>
        parseCmdAndLoop f (Cmd.logical expr s1.cur right) s2
    else some (expr, s1)

/-- `parseCmdAnd`: a negation-level command followed by zero or more
`&&` repetitions. -/
def parseCmdAnd (f : Nat) (s : ParserState) : Option (Cmd × ParserState) :=
  match parseCmdNot f s with
  | none => none
  | some (expr, s1) => parseCmdAndLoop f expr s1

/-- The loop of `parseCmdLor`: `for p.match(token.LOR)` folding
`LogicalCommand` to the left. -/
def parseCmdLorLoop : Nat → Cmd → ParserState → Option (Cmd × ParserState)
  | 0, _, _ => none
  | f + 1, expr, s =>
    let (s1, ok) := matchTok token.LogicalOr s
    if ok then
      match parseCmdAnd f s1 with
      | none => none
      | some (right, s2) =>
        parseCmdLorLoop f (Cmd.logical expr s1.cur right) s2
    else some (expr, s1)

/-- `parseCmdLor`: an and-level command followed by zero or more `||`
repetitions. -/
def parseCmdLor (f : Nat) (s : ParserState) : Option (Cmd × ParserState) :=
  match parseCmdAnd f s with
  | none => none
  | some (expr, s1) => parseCmdLorLoop f expr s1

/-- `parseCommand`: entry point of the command grammar,
lowest-precedence level first. -/
def parseCommand (f : Nat) (s : ParserState) : Option (Cmd × ParserState) :=
  parseCmdLor f s

/-- `parseCmdStmt`: wrap the parsed command in a `CmdStatement`. -/
def parseCmdStmt (f : Nat) (s : ParserState) : Option (Stmt × ParserState) :=
  match parseCommand f s with
  | none => none
  | some (c, s1) => some (Stmt.cmd c, s1)

/-- The terminator check closing `parseStatement`: `if
!p.match(token.SEMICOLON) { p.error(...) }` and return the statement
regardless. -/
def termCheck (st : Option Stmt) (s : ParserState) :
    Option Stmt × ParserState :=
  let (s1, ok) := matchTok token.Semicolon s
  if ok then (st, s1) else (st, perror s1)

mutual

/-- `parseStatement`: dispatch on the peeked kind — `{` starts a block,
`let`/`if`/`for` are unimplemented placeholders that produce no node
and consume nothing, STRING/`!` start a command statement, anything
else is reported as an illegal statement start and skipped by one
token (returning early, before the terminator check). -/
def parseStatement : Nat → ParserState → Option (Option Stmt × ParserState)
  | 0, _ => none
  | f + 1, s =>
    let k := pTok s
    if k = token.LeftBrace then
      match parseBlockLoop f [] s with
      | none => none
      | some (st, s1) => some (termCheck (some st) s1)
    else if k = token.Let ∨ k = token.If ∨ k = token.For then
      some (termCheck none s)
    else if k = token.String ∨ k = token.Not then
      match parseCmdStmt f s with
      | none => none
      | some (st, s1) => some (termCheck (some st) s1)
    else
      some (none, pnext (perror s))

/-- The loop of `parseBlockStmt`: `for p.next(); p.tok != token.RBRACE;
p.next() { ... append(p.parseStatement()) }`. -/
def parseBlockLoop : Nat → List (Option Stmt) → ParserState →
    Option (Stmt × ParserState)
  | 0, _, _ => none
  | f + 1, acc, s =>
    let s1 := pnext s
    if s1.cur.typ = token.RightBrace then some (Stmt.block acc, s1)
    else
      match parseStatement f s1 with
      | none => none
      | some (st, s2) => parseBlockLoop f (acc ++ [st]) s2

end

/-- `parseProgram`'s loop: `for !p.atEnd() {
program.Statements = append(program.Statements, p.parseStatement()) }`. -/
def parseProgramAux : Nat → List (Option Stmt) → ParserState →
    Option (List (Option Stmt) × ParserState)
  | 0, _, _ => none
  | f + 1, acc, s =>
    if atEnd s then some (acc, s)
    else
      match parseStatement f s with
      | none => none
      | some (st, s1) => parseProgramAux f (acc ++ [st]) s1

/-- `parseProgram`: collect statements until the end of the stream. -/
def parseProgram (f : Nat) (s : ParserState) :
    Option (List (Option Stmt) × ParserState) :=
  parseProgramAux f [] s

/-- A fresh parser state over a token stream (nothing consumed yet, no
errors reported). -/
def initState (ts : List Token) : ParserState :=
  ⟨zeroTok, ts, 0⟩

/-- A fixed position for concretely built tokens. -/
def dpos : PositionT := ⟨1, 1⟩

/-- A STRING token (a command word) with the given literal. -/
def strTok (s : String) : Token := ⟨token.String, s, dpos⟩

/-- The `|` operator token. -/
def orTok : Token := ⟨token.Or, "|", dpos⟩

/-- The `&&` operator token. -/
def landTok : Token := ⟨token.LogicalAnd, "&&", dpos⟩

/-- The `||` operator token. -/
def lorTok : Token := ⟨token.LogicalOr, "||", dpos⟩

/-- The `!` operator token. -/
def notTok : Token := ⟨token.Not, "!", dpos⟩

/-- A `;` terminator token with the given literal (an inferred
terminator carries the newline it was inserted at). -/
def semiTok (l : String) : Token := ⟨token.Semicolon, l, dpos⟩

/-- A `let` keyword token. -/
def letTok : Token := ⟨token.Let, "let", dpos⟩

/-! ## Character classes (Go unicode package, Latin-1 range)

The lexer consults Go's `unicode.IsSpace`, `unicode.IsLetter` and
`unicode.IsDigit`.  The embeddings below reproduce Go's Latin-1 tables
exactly; code points above U+00FF (which no claim exercises) are not
modelled. -/

/-- Go `unicode.IsSpace` on the Latin-1 range: tab through carriage
return, space, next-line (U+0085) and no-break space (U+00A0). -/
def goIsSpace (c : Char) : Bool :=
  decide (c.toNat = 32 ∨ (9 ≤ c.toNat ∧ c.toNat ≤ 13) ∨
          c.toNat = 133 ∨ c.toNat = 160)

/-- Go `unicode.IsLetter` on the Latin-1 range. -/
def goIsLetter (c : Char) : Bool :=
  decide ((65 ≤ c.toNat ∧ c.toNat ≤ 90) ∨ (97 ≤ c.toNat ∧ c.toNat ≤ 122) ∨
          c.toNat = 170 ∨ c.toNat = 181 ∨ c.toNat = 186 ∨
          (192 ≤ c.toNat ∧ c.toNat ≤ 214) ∨ (216 ≤ c.toNat ∧ c.toNat ≤ 246) ∨
          (248 ≤ c.toNat ∧ c.toNat ≤ 255))

/-- Go `unicode.IsDigit` on the Latin-1 range: the decimal digits. -/
def goIsDigit (c : Char) : Bool :=
  decide (48 ≤ c.toNat ∧ c.toNat ≤ 57)

/-- pkg/lexer `isAlphabet` (state.go): note the strict bounds, which
exclude `A`, `Z`, `a` and `z` themselves. -/
def isAlphabet (c : Char) : Bool :=
  decide ((65 < c.toNat ∧ c.toNat < 90) ∨ (97 < c.toNat ∧ c.toNat < 122))

/-- pkg/lexer `isIdentStart` (state.go): underscore or a letter. -/
def isIdentStart (c : Char) : Bool :=
  c = '_' || goIsLetter c

/-- pkg/lexer `isIdent` (state.go): identifier start or a digit. -/
def isIdent (c : Char) : Bool :=
  isIdentStart c || goIsDigit c

/-- Lift of `goIsSpace` to the lexer's current rune, which is the eof
sentinel when the source is exhausted (Go's `IsSpace` is false on it). -/
def goIsSpaceO : Option Char → Bool
  | none => false
  | some c => goIsSpace c

/-- Lift of `isAlphabet` to the possibly-eof current rune. -/
def isAlphabetO : Option Char → Bool
  | none => false
  | some c => isAlphabet c

/-- Lift of `isIdentStart` to the possibly-eof current rune. -/
def isIdentStartO : Option Char → Bool
  | none => false
  | some c => isIdentStart c

/-- Lift of `goIsDigit` to the possibly-eof current rune. -/
def goIsDigitO : Option Char → Bool
  | none => false
  | some c => goIsDigit c

/-- Go `string(l.ch)`: the one-rune string, or the replacement rune for
the eof sentinel (Go converts the rune -1 to "�"). -/
def chStr : Option Char → String
  | none => "�"
  | some c => String.singleton c

/-! ## The state-machine lexer (pkg/lexer/state.go)

The 2021-era lexer file holding this machine's `lexer` struct and its
consume helpers is not among the provided sources (the struct is known
from the package's test: tokens carry a type and a value); those
helpers are modelled from the design document (§4.1) and marked below.
Runes are represented as `Char` with `none` as the eof sentinel; the
token channel is represented by the ordered list of emitted tokens. -/

/-- The token value this lexer emits (type and literal value, as the
package's test observes via `c.Type` and `c.Val`). -/
structure TokenV where
  typ : TokenType
  val : String
deriving DecidableEq, Repr

/-- Modelled from the spec: the state-machine lexer's state — source,
current rune `ch` and its width, token-start offset, read offset, and
the stream of tokens emitted so far. -/
structure Lexer where
  src : List Char
  ch : Option Char
  wd : Nat
  offset : Nat
  rdOffset : Nat
  emitted : List TokenV
deriving DecidableEq, Repr

/-- Modelled from the spec: `atEnd` — the read offset has passed the
source. -/
def atEndL (l : Lexer) : Bool :=
  decide (l.rdOffset ≥ l.src.length)

/-- Modelled from the spec: `peek` — the rune right after the current
one, eof when exhausted. -/
def peekL (l : Lexer) : Option Char :=
  l.src.get? l.rdOffset

/-- Modelled from the spec: `consume` — read the next rune, advancing
the read offset; at the end of the source set `ch` to eof with width
0. -/
def consumeL (l : Lexer) : Lexer :=
  match l.src.get? l.rdOffset with
  | none => { l with ch := none, wd := 0 }
  | some c => { l with ch := some c, wd := 1, rdOffset := l.rdOffset + 1 }

/-- Modelled from the spec: `backup` — step back exactly one rune. -/
def backupL (l : Lexer) : Lexer :=
  { l with rdOffset := l.rdOffset - l.wd }

/-- Modelled from the spec: `literal` — the accumulated substring from
the token-start offset to the read offset. -/
def literalL (l : Lexer) : String :=
  String.mk ((l.src.drop l.offset).take (l.rdOffset - l.offset))

/-- Modelled from the spec: `ignore` — reset the accumulation window. -/
def ignoreL (l : Lexer) : Lexer :=
  { l with offset := l.rdOffset }

/-- Modelled from the spec: `emit` — send a token of kind `t` carrying
the accumulated literal on the stream, then reset the window. -/
def emitL (t : TokenType) (l : Lexer) : Lexer :=
  ignoreL { l with emitted := l.emitted ++ [⟨t, literalL l⟩] }

/-- Modelled from the spec: `consumeSpace`'s loop — consume runes while
the next one is whitespace (fuelled by the source length, which always
suffices since each step consumes one rune). -/
def consumeSpaceGo : Nat → Lexer → Lexer
  | 0, l => l
  | f + 1, l =>
    if goIsSpaceO (peekL l) then consumeSpaceGo f (consumeL l) else l

/-- Modelled from the spec: `consumeSpace` — whitespace is skipped and
never emitted (the window is reset after skipping). -/
def consumeSpace (l : Lexer) : Lexer :=
  ignoreL (consumeSpaceGo (l.src.length + 1) l)

/-- Modelled from the spec: `consumeWord`'s loop — consume a
keyword-shaped word (letters in `isAlphabet`). -/
def consumeWordGo : Nat → Lexer → Lexer
  | 0, l => l
  | f + 1, l =>
    if isAlphabetO (peekL l) then consumeWordGo f (consumeL l) else l

/-- Modelled from the spec: `consumeWord` — consume the maximal
keyword-shaped word starting at the read offset. -/
def consumeWord (l : Lexer) : Lexer :=
  consumeWordGo (l.src.length + 1) l

/-- Modelled from the spec: `consumeIdent`'s loop — consume identifier
runes. -/
def consumeIdentGo : Nat → Lexer → Lexer
  | 0, l => l
  | f + 1, l =>
    if (match peekL l with | none => false | some c => isIdent c) then
      consumeIdentGo f (consumeL l)
    else l

/-- Modelled from the spec: `consumeIdent` — consume the identifier
whose first rune is already consumed. -/
def consumeIdent (l : Lexer) : Lexer :=
  consumeIdentGo (l.src.length + 1) l

/-- Modelled from the spec: `consumeString`'s loop — consume runes up
to the closing double quote. -/
def consumeStringGo : Nat → Lexer → Lexer
  | 0, l => l
  | f + 1, l =>
    match peekL l with
    | none => l
    | some c =>
      if c = '"' then consumeL l else consumeStringGo f (consumeL l)

/-- Modelled from the spec: `consumeString` — a double quote begins a
string scan consumed through the closing quote. -/
def consumeString (l : Lexer) : Lexer :=
  consumeStringGo (l.src.length + 1) l

/-- Modelled from the spec: `consumeComment`'s loop — a line comment is
consumed through the end of the line. -/
def consumeCommentGo : Nat → Lexer → Lexer
  | 0, l => l
  | f + 1, l =>
    match peekL l with
    | none => l
    | some c =>
      if c = '\n' then consumeL l else consumeCommentGo f (consumeL l)

/-- Modelled from the spec: `consumeComment` — consume a `#` comment
through the end of the line. -/
def consumeComment (l : Lexer) : Lexer :=
  consumeCommentGo (l.src.length + 1) l

/-- The state functions of state.go, as a closed enumeration: `lexBase`,
`lexStmt`, `lexNum`, `lexStmtOp`, `lexCmd` (`nil` is `none` in the
driver). -/
inductive LexSt where
  | base
  | stmt
  | num
  | stmtOp
  | cmd
deriving DecidableEq, Repr

/-- The operator kind selected by `lexStmtOp`'s switch on the current
rune.  The Go switch names the kinds of the 2021 token package
(`LPAREN`, `RBRACK`, ...); they are embedded as the corresponding kinds
of the provided token catalog.  A rune without a case leaves the Go
zero value, `ILLEGAL`. -/
def stmtOpKind : Option Char → TokenType
  | some '+' => token.Addition
  | some '-' => token.Subtraction
  | some '*' => token.Multiplication
  | some '/' => token.Quotient
  | some '%' => token.Remainder
  | some '&' => token.And
  | some '|' => token.Or
  | some '^' => token.Xor
  | some '<' => token.LessThan
  | some '>' => token.GreaterThan
  | some '=' => token.Assign
  | some '!' => token.Not
  | some '(' => token.LeftParen
  | some '[' => token.LeftParen
  | some '{' => token.LeftBrace
  | some ',' => token.Comma
  | some ')' => token.RightParen
  | some ']' => token.RightBrack
  | some '}' => token.RightBrace
  | some ';' => token.Semicolon
  | some ':' => token.Colon
  | _ => token.Illegal

/-- state.go `lexBase`: peek at the next rune; skip whitespace; when
the rune starts a keyword-shaped word, consume the word — a keyword is
emitted and statement mode entered, otherwise back up one rune and fall
into command mode; all other runes fall into command mode. -/
def lexBase (l : Lexer) : Option LexSt × Lexer :=
  let r := peekL l
  let l1 := if goIsSpaceO r then consumeSpace l else l
  if isAlphabetO r then
    let l2 := consumeWord l1
    let word := literalL l2
    if IsKeyword word then (some LexSt.stmt, emitL (Lookup word) l2)
    else (some LexSt.cmd, backupL l2)
  else (some LexSt.cmd, l1)

/-- state.go `lexStmt`: consume one rune and dispatch — whitespace is
skipped, identifier starts are scanned and resolved through `Lookup`,
digits enter number scanning, a double quote scans a string, an
operator rune branches to operator disambiguation, `#` scans a line
comment, eof emits the EOF token and halts, and anything else is
emitted as ILLEGAL. -/
def lexStmt (l : Lexer) : Option LexSt × Lexer :=
  let l1 := consumeL l
  if goIsSpaceO l1.ch then (some LexSt.stmt, consumeSpace l1)
  else if isIdentStartO l1.ch then
    let l2 := consumeIdent l1
    (some LexSt.stmt, emitL (Lookup (literalL l2)) l2)
  else if goIsDigitO l1.ch then (some LexSt.num, l1)
  else if l1.ch = some '"' then
    let l2 := consumeString l1
    (some LexSt.stmt, emitL token.String l2)
  else if IsOperator (chStr l1.ch) then (some LexSt.stmtOp, l1)
  else if l1.ch = some '#' then
    let l2 := consumeComment l1
    (some LexSt.stmt, emitL token.Comment l2)
  else if l1.ch = none then (none, emitL token.Eof l1)
  else (some LexSt.stmt, emitL token.Illegal l1)

/-- state.go `lexNum`: consume decimal digits and emit a FLOAT token. -/
def lexNumGo : Nat → Lexer → Lexer
  | 0, l => l
  | f + 1, l =>
    if goIsDigitO (peekL l) then lexNumGo f (consumeL l) else l

/-- state.go `lexNum` as a state function. -/
def lexNumF (l : Lexer) : Option LexSt × Lexer :=
  (some LexSt.stmt, emitL token.Number (lexNumGo (l.src.length + 1) l))

/-- state.go `lexStmtOp` as a state function: emit the kind selected by
the switch on the current rune and return to statement mode. -/
def lexStmtOpF (l : Lexer) : Option LexSt × Lexer :=
  (some LexSt.stmt, emitL (stmtOpKind l.ch) l)

/-- state.go `lexCmd`: the command-mode state is a stub that returns
`nil`, halting the machine without emitting anything. -/
def lexCmd (l : Lexer) : Option LexSt × Lexer :=
  (none, l)

/-- One step of the `run` driver: apply the current state function. -/
def stepL : LexSt → Lexer → Option LexSt × Lexer
  | LexSt.base, l => lexBase l
  | LexSt.stmt, l => lexStmt l
  | LexSt.num, l => lexNumF l
  | LexSt.stmtOp, l => lexStmtOpF l
  | LexSt.cmd, l => lexCmd l

/-- state.go `run`: iterate state functions until one returns `nil`,
then close the token channel.  The fuel only bounds the iteration
count; `none` means it was exhausted. -/
def runAux : Nat → LexSt → Lexer → Option Lexer
  | 0, _, _ => none
  | f + 1, st, l =>
    match stepL st l with
    | (none, l2) => some l2
    | (some st2, l2) => runAux f st2 l2

/-- A fresh lexer over a source string. -/
def initLexer (s : String) : Lexer :=
  ⟨s.toList, none, 0, 0, 0, []⟩

/-- `Lex`: run the machine from the base state. -/
def runLex (s : String) : Option Lexer :=
  runAux (s.length + 4) LexSt.base (initLexer s)

/-- The stream of tokens produced for a source string (in emission
order, ending when the channel closes). -/
def runTokens (s : String) : Option (List TokenV) :=
  (runLex s).map Lexer.emitted

/-! ## The rune reader (src/unnamed/part_003)

The 2022-era lexer core: `consume` with NUL / invalid-UTF-8 / late-BOM
detection.  Source bytes are `List Nat`; runes are `Int` with -1 as the
eof sentinel; the externally supplied error handler is represented by
the ordered log of its invocations. -/

/-- The error values `ErrNUL`, `ErrBOM`, `ErrEnc` of the lexer. -/
inductive LexErr where
  | nul
  | bom
  | enc
deriving DecidableEq, Repr

/-- The `lexer` struct of the rune reader: source bytes, current rune
and width, token-start and read offsets, the three positions, the
error count, and the log of error-handler invocations. -/
structure lexerU where
  src : List Nat
  ch : Int
  wd : Nat
  offset : Nat
  rdOffset : Nat
  start : PositionT
  prev : PositionT
  pos : PositionT
  ErrCount : Nat
  handlerLog : List (PositionT × LexErr)
deriving DecidableEq, Repr

/-- `error`: increment `ErrCount` and invoke the error handler with the
current position and the error. -/
def errorU (l : lexerU) (e : LexErr) : lexerU :=
  { l with ErrCount := l.ErrCount + 1,
           handlerLog := l.handlerLog ++ [(l.pos, e)] }

/-- `atEnd`: the read offset has reached the end of the source. -/
def atEndU (l : lexerU) : Bool :=
  decide (l.rdOffset ≥ l.src.length)

/-- Go `utf8.DecodeRuneInString` on the byte list: the first rune and
its width; `(RuneError, 1)` when the encoding is invalid or truncated,
`(RuneError, 0)` on the empty string. -/
def decodeRune : List Nat → Int × Nat
  | [] => (0xFFFD, 0)
  | b0 :: rest =>
    if b0 < 0x80 then (Int.ofNat b0, 1)
    else if b0 < 0xC2 then (0xFFFD, 1)
    else if b0 < 0xE0 then
      match rest with
      | b1 :: _ =>
        if 0x80 ≤ b1 ∧ b1 ≤ 0xBF then
          (Int.ofNat ((b0 - 0xC0) * 64 + (b1 - 0x80)), 2)
        else (0xFFFD, 1)
      | [] => (0xFFFD, 1)
    else if b0 < 0xF0 then
      match rest with
      | b1 :: b2 :: _ =>
        let lo := if b0 = 0xE0 then 0xA0 else 0x80
        let hi := if b0 = 0xED then 0x9F else 0xBF
        if lo ≤ b1 ∧ b1 ≤ hi ∧ 0x80 ≤ b2 ∧ b2 ≤ 0xBF then
          (Int.ofNat ((b0 - 0xE0) * 4096 + (b1 - 0x80) * 64 + (b2 - 0x80)), 3)
        else (0xFFFD, 1)
      | _ => (0xFFFD, 1)
    else if b0 < 0xF5 then
      match rest with
      | b1 :: b2 :: b3 :: _ =>
        let lo := if b0 = 0xF0 then 0x90 else 0x80
        let hi := if b0 = 0xF4 then 0x8F else 0xBF
        if lo ≤ b1 ∧ b1 ≤ hi ∧ 0x80 ≤ b2 ∧ b2 ≤ 0xBF ∧
           0x80 ≤ b3 ∧ b3 ≤ 0xBF then
          (Int.ofNat ((b0 - 0xF0) * 262144 + (b1 - 0x80) * 4096 +
                      (b2 - 0x80) * 64 + (b3 - 0x80)), 4)
        else (0xFFFD, 1)
      | _ => (0xFFFD, 1)
    else (0xFFFD, 1)

/-- The shared tail of `consume` (the `advance` label): record the rune
and width, remember the previous position, move the read offset and the
column by the width, and start a new line after a newline rune. -/
def advanceU (l : lexerU) (r : Int) (w : Nat) : lexerU :=
  let p1 : PositionT := ⟨l.pos.line, l.pos.col + w⟩
  { l with ch := r, wd := w, prev := l.pos, rdOffset := l.rdOffset + w,
           pos := if r = 10 then p1.NextLine else p1 }

/-- The byte at the read offset, `l.src[l.rdOffset]` (only read when
not at the end, so the default is never used). -/
def byteAt (l : lexerU) : Nat :=
  l.src.getD l.rdOffset 0

/-- `consume` (src/unnamed/part_003): at the end of the source set the
eof sentinel; otherwise read the next byte — a NUL byte is reported and
skipped with width 1; an ASCII byte advances directly; a multi-byte
sequence is decoded, reporting an invalid encoding (width 1) or a
byte-order mark whose token-start offset is positive, and advances by
the decoded width. -/
def consume (l : lexerU) : lexerU :=
  if atEndU l then { l with ch := -1, wd := 0 }
  else if byteAt l = 0 then advanceU (errorU l LexErr.nul) 0 1
  else if byteAt l < 0x80 then advanceU l (Int.ofNat (byteAt l)) 1
  else
    let r := (decodeRune (l.src.drop l.rdOffset)).1
    let w := (decodeRune (l.src.drop l.rdOffset)).2
    if r = 0xFFFD ∧ w = 1 then advanceU (errorU l LexErr.enc) r w
    else if r = 0xFEFF ∧ 0 < l.offset then advanceU (errorU l LexErr.bom) r w
    else advanceU l r w

/-- A fresh rune reader over a byte source, as `Lex` builds it: both
the token-start and current positions at line 1, column 1. -/
def initLexerU (bs : List Nat) : lexerU :=
  ⟨bs, 0, 0, 0, 0, ⟨1, 1⟩, ⟨0, 0⟩, ⟨1, 1⟩, 0, []⟩

/-- A source whose second rune (inside the first token, token-start
offset still 0) is a byte-order mark: the byte `a` followed by the
UTF-8 encoding EF BB BF of U+FEFF. -/
def lexBomEarly : lexerU :=
  initLexerU [0x61, 0xEF, 0xBB, 0xBF]

/-- A reader state positioned right after a first token (token-start
offset 1) whose next rune is a byte-order mark. -/
def lexBomLate : lexerU :=
  ⟨[0x3B, 0xEF, 0xBB, 0xBF], 59, 1, 1, 1, ⟨1, 1⟩, ⟨1, 1⟩, ⟨1, 2⟩, 0, []⟩

/-- A reader over a single NUL byte. -/
def lexNul : lexerU :=
  initLexerU [0]

/-- A reader over a single invalid UTF-8 byte (0xFF can start no
sequence). -/
def lexBad : lexerU :=
  initLexerU [0xFF]

/-- Modelled from the spec: the token stream of the two-statement
source string containing `a`, a newline, `b` and a semicolon — the
statement terminator after `a` is inferred at the newline (the design
document specifies terminators may be inferred, and the token catalog's
`InsertSemi` directs insertion after a STRING token). -/
def tokensAB : List Token :=
  [strTok "a", semiTok "\n", strTok "b", semiTok ";"]

/-! ## Helper lemmas -/

/-- Reporting a syntax error does not move the token window. -/
theorem pTok_perror (s : ParserState) : pTok (perror s) = pTok s := rfl

/-- The successor-step equation of the program loop. -/
theorem parseProgramAux_succ (f : Nat) (acc : List (Option Stmt))
    (s : ParserState) :
    parseProgramAux (f + 1) acc s =
      if atEnd s then some (acc, s)
      else
        match parseStatement f s with
        | none => none
        | some (st, s1) => parseProgramAux f (acc ++ [st]) s1 := rfl

/-- The successor-step equation of the lexer driver. -/
theorem runAux_succ (f : Nat) (st : LexSt) (l : Lexer) :
    runAux (f + 1) st l =
      match stepL st l with
      | (none, l2) => some l2
      | (some st2, l2) => runAux f st2 l2 := rfl

/-- `consume` never emits. -/
theorem consumeL_emitted (l : Lexer) : (consumeL l).emitted = l.emitted := by
  unfold consumeL
  cases l.src.get? l.rdOffset <;> rfl

/-- The whitespace-skipping loop never emits. -/
theorem consumeSpaceGo_emitted (f : Nat) :
    ∀ l : Lexer, (consumeSpaceGo f l).emitted = l.emitted := by
  induction f with
  | zero => intro l; rfl
  | succ f ih =>
    intro l
    unfold consumeSpaceGo
    split
    · rw [ih, consumeL_emitted]
    · rfl

/-- `consumeSpace` never emits. -/
theorem consumeSpace_emitted (l : Lexer) :
    (consumeSpace l).emitted = l.emitted := by
  unfold consumeSpace ignoreL
  simp [consumeSpaceGo_emitted]

/-- A whitespace rune never starts a keyword-shaped word. -/
theorem isAlphabet_of_goIsSpace (c : Char) (h : goIsSpace c = true) :
    isAlphabet c = false := by
  unfold goIsSpace at h
  unfold isAlphabet
  rw [decide_eq_true_eq] at h
  rw [decide_eq_false_iff_not]
  omega

/-- `lexBase` on a rune that cannot start a word: skip whitespace if
any and fall into command mode. -/
theorem lexBase_nonword (l : Lexer) (h : isAlphabetO (peekL l) = false) :
    lexBase l =
      (some LexSt.cmd, if goIsSpaceO (peekL l) then consumeSpace l else l) := by
  simp [lexBase, h]

/-- Running from the base state when `lexBase` falls into command mode:
the machine halts with the state `lexBase` produced. -/
theorem runLex_of_base_cmd (s : String) (l1 : Lexer)
    (hb : lexBase (initLexer s) = (some LexSt.cmd, l1)) :
    runLex s = some l1 := by
  unfold runLex
  rw [show String.length s + 4 = (String.length s + 3) + 1 from rfl,
      runAux_succ]
  show (match lexBase (initLexer s) with
        | (none, l2) => some l2
        | (some st2, l2) => runAux (String.length s + 3) st2 l2) = some l1
  rw [hb]
  rw [show String.length s + 3 = (String.length s + 2) + 1 from rfl]
  rfl

/-! ## Claims -/

/-- C9: the kind-to-spelling table is a bidirectional mapping — for
every kind with a non-empty canonical spelling, `token` applied to its
`String` spelling returns the kind again; `Lookup` returns the
keyword's kind on every keyword spelling and `Identifier` on every
other string. -/
theorem C9_token_table_bidirectional :
    (∀ t : Nat, t < 64 → tokens.getD t "" ≠ "" →
      token (TokenType.String t) = t)
    ∧ (∀ t : Nat, t < 64 → token.keywordBeg < t →
      Lookup (tokens.getD t "") = t)
    ∧ (∀ s : String, IsKeyword s = false → Lookup s = token.Identifier) := by
  refine ⟨by decide, by decide, ?_⟩
  intro s h
  unfold Lookup
  unfold IsKeyword at h
  cases hl : List.lookup s keywords with
  | none => rfl
  | some t => rw [hl] at h; simp at h

/-- Witness for C9 at the spellings of `(`, `let` and a non-keyword. -/
theorem C9_token_table_bidirectional_witness :
    token (TokenType.String 42) = 42
    ∧ Lookup (tokens.getD 58 "") = 58
    ∧ Lookup "cdcmd" = token.Identifier :=
  ⟨C9_token_table_bidirectional.1 42 (by decide) (by decide),
   C9_token_table_bidirectional.2.1 58 (by decide) (by decide),
   C9_token_table_bidirectional.2.2 "cdcmd" (by decide)⟩

/-- C5: the command-composition operators fold left — for all commands
`a`, `b`, `c`, the stream `a | b | c` parses as
`BinaryCommand{BinaryCommand{a, b}, c}`, and the `&&` and `||` streams
fold into `LogicalCommand` the same way. -/
theorem C5_left_associative (a b c : String) :
    parseCommand 20 (initState [strTok a, orTok, strTok b, orTok, strTok c]) =
      some (Cmd.binary (Cmd.binary (Cmd.lit (strTok a) []) orTok
              (Cmd.lit (strTok b) [])) orTok (Cmd.lit (strTok c) []),
            ⟨strTok c, [], 0⟩)
    ∧ parseCommand 20
        (initState [strTok a, landTok, strTok b, landTok, strTok c]) =
      some (Cmd.logical (Cmd.logical (Cmd.lit (strTok a) []) landTok
              (Cmd.lit (strTok b) [])) landTok (Cmd.lit (strTok c) []),
            ⟨strTok c, [], 0⟩)
    ∧ parseCommand 20
        (initState [strTok a, lorTok, strTok b, lorTok, strTok c]) =
      some (Cmd.logical (Cmd.logical (Cmd.lit (strTok a) []) lorTok
              (Cmd.lit (strTok b) [])) lorTok (Cmd.lit (strTok c) []),
            ⟨strTok c, [], 0⟩) :=
  ⟨rfl, rfl, rfl⟩

/-- C6: `&&` binds tighter than `||` — for all commands `a`, `b`, `c`,
the stream `a || b && c` parses as
`LogicalCommand{a, ||, LogicalCommand{b, &&, c}}`. -/
theorem C6_and_binds_tighter (a b c : String) :
    parseCommand 20
        (initState [strTok a, lorTok, strTok b, landTok, strTok c]) =
      some (Cmd.logical (Cmd.lit (strTok a) []) lorTok
              (Cmd.logical (Cmd.lit (strTok b) []) landTok
                (Cmd.lit (strTok c) [])),
            ⟨strTok c, [], 0⟩) := rfl

/-- C7: negation wraps a full pipe expression — for all commands `a`,
`b`, the stream `! a | b` parses as
`UnaryCommand{BinaryCommand{a, b}}`, not as a pipe whose left side
negates `a` alone. -/
theorem C7_negation_scope (a b : String) :
    parseCommand 20 (initState [notTok, strTok a, orTok, strTok b]) =
      some (Cmd.unary notTok (Cmd.binary (Cmd.lit (strTok a) []) orTok
              (Cmd.lit (strTok b) [])),
            ⟨strTok b, [], 0⟩) := rfl

/-- C1 (corrected): a token that cannot begin any statement (the
default case of the dispatch) is reported and skipped by advancing
exactly one token; but on the placeholder keywords `let`, `if`, `for`
the parser consumes nothing, and `parseProgram` on a stream beginning
with one of them never terminates (every fuel is exhausted). -/
theorem C1_progress_and_divergence :
    (∀ (f : Nat) (c : Token) (ts : List Token) (e : Nat) (t : Token),
      t.typ ≠ token.LeftBrace → t.typ ≠ token.Let → t.typ ≠ token.If →
      t.typ ≠ token.For → t.typ ≠ token.String → t.typ ≠ token.Not →
      parseStatement (f + 1) ⟨c, t :: ts, e⟩ = some (none, ⟨t, ts, e + 1⟩))
    ∧ (∀ (f : Nat) (acc : List (Option Stmt)) (c : Token) (e : Nat)
        (k : TokenType) (lit : String) (p : PositionT),
      k = token.Let ∨ k = token.If ∨ k = token.For →
      parseProgramAux f acc ⟨c, [⟨k, lit, p⟩], e⟩ = none) := by
  constructor
  · intro f c ts e t h1 h2 h3 h4 h5 h6
    simp [parseStatement, pTok, h1, h2, h3, h4, h5, h6, pnext, perror]
  · intro f acc c e k lit p hk
    have h44 : k ≠ token.LeftBrace := by
      rcases hk with h | h | h <;> subst h <;> decide
    have h6 : k ≠ token.String := by
      rcases hk with h | h | h <;> subst h <;> decide
    have h38 : k ≠ token.Not := by
      rcases hk with h | h | h <;> subst h <;> decide
    have h51 : k ≠ token.Semicolon := by
      rcases hk with h | h | h <;> subst h <;> decide
    induction f generalizing acc e with
    | zero => rfl
    | succ f ih =>
      cases f with
      | zero => rfl
      | succ g =>
        have hstep :
            parseStatement (g + 1) ⟨c, [⟨k, lit, p⟩], e⟩ =
              some (none, ⟨c, [⟨k, lit, p⟩], e + 1⟩) := by
          simp [parseStatement, pTok, h44, hk, termCheck, matchTok, h51,
                perror]
        rw [parseProgramAux_succ, hstep]
        exact ih (acc ++ [none]) (e + 1)

/-- Witness for C1 at a comma statement start and a `let` stream. -/
theorem C1_progress_and_divergence_witness :
    parseStatement 1 ⟨zeroTok, [⟨token.Comma, ",", dpos⟩], 0⟩ =
      some (none, ⟨⟨token.Comma, ",", dpos⟩, [], 1⟩)
    ∧ parseProgramAux 5 [] ⟨zeroTok, [⟨token.Let, "let", dpos⟩], 0⟩ = none :=
  ⟨C1_progress_and_divergence.1 0 zeroTok [] 0 ⟨token.Comma, ",", dpos⟩
      (by decide) (by decide) (by decide) (by decide) (by decide) (by decide),
   C1_progress_and_divergence.2 5 [] zeroTok 0 token.Let "let" dpos
      (Or.inl rfl)⟩

/-- C1 fails as stated: on the stream holding the single keyword `let`,
`parseStatement` reports an error but consumes nothing (the token is
still unconsumed afterwards), and `parseProgram` exhausts any amount of
fuel — the parser makes no forward progress and never terminates. -/
theorem C1_counterexample :
    parseStatement 5 (initState [letTok]) =
      some (none, ⟨zeroTok, [letTok], 1⟩)
    ∧ atEnd (initState [letTok]) = false
    ∧ parseProgram 100 (initState [letTok]) = none :=
  ⟨rfl, rfl, rfl⟩

/-- C3 (corrected): a command-literal position holding zero STRING
tokens reports a parse error, but the parser still constructs and
returns a `LiteralCommand` — its `Cmd` field is the stale
previously-consumed token, not a STRING command name. -/
theorem C3_error_but_node_built (f : Nat) (s : ParserState)
    (h : pTok s ≠ token.String) :
    parseCmdLit (f + 1) s = some (Cmd.lit s.cur [], perror s) := by
  simp only [pTok] at h
  simp [parseCmdLit, parseCmdLitArgs, matchTok, pTok, perror, h]

/-- Witness for C3 at a stream whose first token is a semicolon. -/
theorem C3_error_but_node_built_witness :
    parseCmdLit 3 (initState [semiTok ";"]) =
      some (Cmd.lit zeroTok [], perror (initState [semiTok ";"])) :=
  C3_error_but_node_built 2 (initState [semiTok ";"]) (by decide)

/-- C3 fails as stated: parsing the command of the stream `! ;` reports
an error (count 1) yet builds `UnaryCommand` around a `LiteralCommand`
whose `Cmd` is the `!` token — a Command node without a STRING command
name is constructed. -/
theorem C3_counterexample :
    parseCommand 20 (initState [notTok, semiTok ";"]) =
      some (Cmd.unary notTok (Cmd.lit notTok []),
            ⟨notTok, [semiTok ";"], 1⟩)
    ∧ notTok.typ ≠ token.String :=
  ⟨rfl, by decide⟩

/-- C4 (corrected): every statement parse is immediately followed by
the terminator check — when the token after a one-word command is
neither a terminator nor a token its literal would absorb, the parser
reports one syntax error, still returns the command statement, and
leaves the stream positioned to continue; but on the stream of
`a`, newline, `b`, `;` the newline infers a semicolon after `a`, so the
parser reports zero syntax errors and returns two statements. -/
theorem C4_recovery :
    (∀ (f : Nat) (c : Token) (e : Nat) (a : String) (t : Token)
        (ts : List Token),
      t.typ ≠ token.Semicolon → t.typ ≠ token.String → t.typ ≠ token.Or →
      t.typ ≠ token.LogicalOr → t.typ ≠ token.LogicalAnd →
      parseStatement (f + 1 + 1) ⟨c, strTok a :: t :: ts, e⟩ =
        some (some (Stmt.cmd (Cmd.lit (strTok a) [])),
              ⟨strTok a, t :: ts, e + 1⟩))
    ∧ parseProgram 30 (initState tokensAB) =
      some ([some (Stmt.cmd (Cmd.lit (strTok "a") [])),
             some (Stmt.cmd (Cmd.lit (strTok "b") []))],
            ⟨semiTok ";", [], 0⟩) := by
  constructor
  · intro f c e a t ts h51 h6 h15 h32 h31
    have n1 : token.String ≠ token.LeftBrace := by decide
    have n2 : ¬(token.String = token.Let ∨ token.String = token.If ∨
               token.String = token.For) := by decide
    have n3 : token.String ≠ token.Not := by decide
    have n4 : token.String ≠ token.Semicolon := by decide
    simp [parseStatement, pTok, strTok, dpos, parseCmdStmt, parseCommand,
          parseCmdLor, parseCmdAnd, parseCmdNot, parseCmdPipe, parseCmdLit,
          parseCmdLitArgs, parseCmdPipeLoop, parseCmdAndLoop,
          parseCmdLorLoop, matchTok, pnext, termCheck, perror,
          n1, n2, n3, n4, h51, h6, h15, h32, h31]
  · rfl

/-- Witness for C4 at a one-word command followed by a comma. -/
theorem C4_recovery_witness :
    parseStatement 2 ⟨zeroTok, [strTok "x", ⟨token.Comma, ",", dpos⟩], 0⟩ =
      some (some (Stmt.cmd (Cmd.lit (strTok "x") [])),
            ⟨strTok "x", [⟨token.Comma, ",", dpos⟩], 1⟩) :=
  C4_recovery.1 0 zeroTok 0 "x" ⟨token.Comma, ",", dpos⟩ []
    (by decide) (by decide) (by decide) (by decide) (by decide)

/-- C4 fails as stated: on the token stream of `a`, newline, `b`, `;`
(the terminator after `a` inferred at the newline), the parser returns
two statements but reports zero syntax errors, not exactly one. -/
theorem C4_counterexample :
    (parseProgram 30 (initState tokensAB)).map
        (fun r => (r.1.length, r.2.errs)) = some (2, 0) := rfl

/-- C2 (corrected): for every source string of whitespace runes, the
lexer emits no tokens at all before closing the stream — the base state
skips the whitespace and falls into the stub command state, which halts
without emitting; only the statement-mode state emits the one EOF token
at end-of-input and halts. -/
theorem C2_whitespace_stream :
    (∀ s : String, s.toList.all goIsSpace = true → runTokens s = some [])
    ∧ ((runAux 4 LexSt.stmt (initLexer "")).map Lexer.emitted) =
      some [⟨token.Eof, ""⟩] := by
  constructor
  · intro s h
    have hA : isAlphabetO (peekL (initLexer s)) = false := by
      cases hs : s.toList with
      | nil =>
        have hp : peekL (initLexer s) = none := by
          simp only [peekL, initLexer]
          rw [hs]
          rfl
        rw [hp]
        rfl
      | cons c cs =>
        have hc : goIsSpace c = true := by
          rw [hs] at h
          simp only [List.all_cons, Bool.and_eq_true] at h
          exact h.1
        have hp : peekL (initLexer s) = some c := by
          simp only [peekL, initLexer]
          rw [hs]
          rfl
        rw [hp]
        exact isAlphabet_of_goIsSpace c hc
    have hb : lexBase (initLexer s) =
        (some LexSt.cmd,
         if goIsSpaceO (peekL (initLexer s)) then consumeSpace (initLexer s)
         else initLexer s) :=
      lexBase_nonword (initLexer s) hA
    unfold runTokens
    rw [runLex_of_base_cmd s _ hb]
    show some (if goIsSpaceO (peekL (initLexer s)) then
        consumeSpace (initLexer s) else initLexer s).emitted = some []
    split
    · rw [consumeSpace_emitted]
      rfl
    · rfl
  · rfl

/-- Witness for C2 at a one-space source. -/
theorem C2_whitespace_stream_witness : runTokens " " = some [] :=
  C2_whitespace_stream.1 " " (by decide)

/-- C2 fails as stated: the whitespace-only source of one space
produces an empty token stream, not a stream holding exactly one
end-of-input token. -/
theorem C2_counterexample :
    runTokens " " = some [] ∧ ([] : List TokenV) ≠ [⟨token.Eof, ""⟩] :=
  ⟨rfl, by decide⟩

/-- C10: in statement mode, lexing `[` emits a token of the
left-parenthesis kind — the same kind `(` produces — while `]` emits
the distinct right-bracket kind. -/
theorem C10_bracket_kinds :
    ((runAux 5 LexSt.stmt (initLexer "[")).map Lexer.emitted) =
      some [⟨token.LeftParen, "["⟩, ⟨token.Eof, ""⟩]
    ∧ ((runAux 5 LexSt.stmt (initLexer "(")).map Lexer.emitted) =
      some [⟨token.LeftParen, "("⟩, ⟨token.Eof, ""⟩]
    ∧ ((runAux 5 LexSt.stmt (initLexer "]")).map Lexer.emitted) =
      some [⟨token.RightBrack, "]"⟩, ⟨token.Eof, ""⟩]
    ∧ token.LeftParen ≠ token.RightBrack :=
  ⟨rfl, rfl, rfl, by decide⟩

/-- C8 (corrected): a NUL byte and an invalid UTF-8 encoding each
increment the error counter by exactly one, invoke the error handler
with the fault's position, and are skipped with width 1; a byte-order
mark is reported the same way and skipped with its full width — but
only when the token-start offset is positive, not at every non-initial
position. -/
theorem C8_fault_handling :
    (∀ l : lexerU, atEndU l = false → byteAt l = 0 →
      (consume l).ErrCount = l.ErrCount + 1 ∧
      (consume l).handlerLog = l.handlerLog ++ [(l.pos, LexErr.nul)] ∧
      (consume l).rdOffset = l.rdOffset + 1)
    ∧ (∀ l : lexerU, atEndU l = false → 0x80 ≤ byteAt l →
      decodeRune (l.src.drop l.rdOffset) = (0xFFFD, 1) →
      (consume l).ErrCount = l.ErrCount + 1 ∧
      (consume l).handlerLog = l.handlerLog ++ [(l.pos, LexErr.enc)] ∧
      (consume l).rdOffset = l.rdOffset + 1)
    ∧ (∀ l : lexerU, atEndU l = false → 0x80 ≤ byteAt l →
      decodeRune (l.src.drop l.rdOffset) = (0xFEFF, 3) → 0 < l.offset →
      (consume l).ErrCount = l.ErrCount + 1 ∧
      (consume l).handlerLog = l.handlerLog ++ [(l.pos, LexErr.bom)] ∧
      (consume l).rdOffset = l.rdOffset + 3) := by
  refine ⟨?_, ?_, ?_⟩
  · intro l h1 h2
    simp [consume, h1, h2, advanceU, errorU]
  · intro l h1 h2 h3
    have hb0 : ¬(byteAt l = 0) := by omega
    have hb1 : ¬(byteAt l < 0x80) := by omega
    simp [consume, h1, hb0, hb1, h3, advanceU, errorU]
  · intro l h1 h2 h3 h4
    have hb0 : ¬(byteAt l = 0) := by omega
    have hb1 : ¬(byteAt l < 0x80) := by omega
    simp [consume, h1, hb0, hb1, h3, h4, advanceU, errorU]

/-- Witness for C8 at a NUL source, an invalid byte, and a byte-order
mark after the first token. -/
theorem C8_fault_handling_witness :
    ((consume lexNul).ErrCount = lexNul.ErrCount + 1 ∧
     (consume lexNul).handlerLog =
       lexNul.handlerLog ++ [(lexNul.pos, LexErr.nul)] ∧
     (consume lexNul).rdOffset = lexNul.rdOffset + 1)
    ∧ ((consume lexBad).ErrCount = lexBad.ErrCount + 1 ∧
     (consume lexBad).handlerLog =
       lexBad.handlerLog ++ [(lexBad.pos, LexErr.enc)] ∧
     (consume lexBad).rdOffset = lexBad.rdOffset + 1)
    ∧ ((consume lexBomLate).ErrCount = lexBomLate.ErrCount + 1 ∧
     (consume lexBomLate).handlerLog =
       lexBomLate.handlerLog ++ [(lexBomLate.pos, LexErr.bom)] ∧
     (consume lexBomLate).rdOffset = lexBomLate.rdOffset + 3) :=
  ⟨C8_fault_handling.1 lexNul (by decide) (by decide),
   C8_fault_handling.2.1 lexBad (by decide) (by decide) (by decide),
   C8_fault_handling.2.2 lexBomLate (by decide) (by decide) (by decide)
     (by decide)⟩

/-- C8 fails as stated: a byte-order mark at the second rune of the
source — not the very first position — goes unreported when the
token-start offset is still 0: after consuming `a` and then the mark,
the error counter is 0 and the handler was never invoked (though the
reader does advance past the mark). -/
theorem C8_counterexample :
    (consume lexBomEarly).rdOffset = 1
    ∧ (consume (consume lexBomEarly)).ch = 0xFEFF
    ∧ (consume (consume lexBomEarly)).ErrCount = 0
    ∧ (consume (consume lexBomEarly)).handlerLog = []
    ∧ (consume (consume lexBomEarly)).rdOffset = 4 := by
  refine ⟨rfl, rfl, rfl, rfl, rfl⟩

/-- Witness for C5 at three concrete command words. -/
theorem C5_left_associative_witness :
    parseCommand 20
        (initState [strTok "a", orTok, strTok "b", orTok, strTok "c"]) =
      some (Cmd.binary (Cmd.binary (Cmd.lit (strTok "a") []) orTok
              (Cmd.lit (strTok "b") [])) orTok (Cmd.lit (strTok "c") []),
            ⟨strTok "c", [], 0⟩) :=
  (C5_left_associative "a" "b" "c").1

/-- Witness for C6 at three concrete command words. -/
theorem C6_and_binds_tighter_witness :
    parseCommand 20
        (initState [strTok "a", lorTok, strTok "b", landTok, strTok "c"]) =
      some (Cmd.logical (Cmd.lit (strTok "a") []) lorTok
              (Cmd.logical (Cmd.lit (strTok "b") []) landTok
                (Cmd.lit (strTok "c") [])),
            ⟨strTok "c", [], 0⟩) :=
  C6_and_binds_tighter "a" "b" "c"

/-- Witness for C7 at two concrete command words. -/
theorem C7_negation_scope_witness :
    parseCommand 20 (initState [notTok, strTok "a", orTok, strTok "b"]) =
      some (Cmd.unary notTok (Cmd.binary (Cmd.lit (strTok "a") []) orTok
              (Cmd.lit (strTok "b") [])),
            ⟨strTok "b", [], 0⟩) :=
  C7_negation_scope "a" "b"
